import Mathlib

/-!
Shallow embedding of the campaign retry/TTL subsystem:
the retry policy table and decision logic (RetryService), the in-memory
retry state store (CampaignService), and the periodic retry scheduler
(RetryEngine).

Timestamps are modelled as integers (milliseconds since the epoch, the
value of a JavaScript Date); a value of type Option Int stands for the
result of parsing a datetime string, with none for an absent (or
unparsable) input where the source checks presence.  The ambient clock
(new Date() in the source) is passed explicitly as a parameter now.
-/

/-- One hour in milliseconds. -/
def hourMs : Int := 3600000

/-- One day (24 hours) in milliseconds, the step of Date.setDate. -/
def dayMs : Int := 86400000

/-- Retry policy for an error code: ordered backoff intervals in hours,
plus the optional template-active precondition (for code 132015). -/
structure RetryPolicy where
  errorCode : String
  description : String
  retryIntervals : List Nat
  requiresTemplateActive : Bool := false
deriving DecidableEq, Repr

/-- The static policy table keyed by error code; unknown codes have no
policy.  Mirrors DEFAULT_RETRY_POLICIES with its three built-in entries. -/
def DEFAULT_RETRY_POLICIES (errorCode : String) : Option RetryPolicy :=
  if errorCode = "131049" then
    some { errorCode := "131049", description := "Frequency cap / healthy ecosystem",
           retryIntervals := [12, 24, 48] }
  else if errorCode = "130472" then
    some { errorCode := "130472", description := "Experiment group",
           retryIntervals := [24, 24, 24] }
  else if errorCode = "132015" then
    some { errorCode := "132015", description := "Template paused",
           retryIntervals := [24], requiresTemplateActive := true }
  else none

/-- Retry/TTL configuration of a campaign (RetryTtlConfig). -/
structure RetryTtlConfig where
  enabled : Bool
  ttlDateTime : Option Int
  scheduledDateTime : Option Int
  stopOnConversion : Bool
  stopOnManualPause : Bool
  stopOnTemplateChange : Bool
deriving DecidableEq, Repr

/-- Status of a recorded retry attempt. -/
inductive AttemptStatus where
  | pending
  | completed
  | failed
  | skipped
deriving DecidableEq, Repr

/-- One recorded retry attempt (RetryAttempt). -/
structure RetryAttempt where
  attemptNumber : Nat
  scheduledAt : Int
  errorCode : Option String
  status : AttemptStatus
  executedAt : Option Int
deriving DecidableEq, Repr

/-- Per-campaign retry state (CampaignRetryState). -/
structure CampaignRetryState where
  campaignId : String
  retryConfig : RetryTtlConfig
  attempts : List RetryAttempt
  lastAttemptAt : Option Int
  nextAttemptAt : Option Int
  isExpired : Bool
deriving DecidableEq, Repr

/-- Result of a TTL validation: the structured value the validators return. -/
structure ValidationResult where
  isValid : Bool
  errors : List String
deriving DecidableEq, Repr

/-- Result of RetryService.calculateNextRetryAttempt. -/
structure NextRetryResult where
  nextAttemptAt : Option Int
  shouldRetry : Bool
deriving DecidableEq, Repr

/-- Result of RetryService.processRetryAttempt. -/
structure RetryDecision where
  shouldRetry : Bool
  nextAttemptAt : Option Int
  reason : String
deriving DecidableEq, Repr

namespace RetryService

/-- RetryService.isRetryTtlExpired: now > ttl. -/
def isRetryTtlExpired (ttlDateTime now : Int) : Bool :=
  decide (ttlDateTime < now)

/-- RetryService.validateUnifiedTtl: parse both datetimes (none models an
unparsable input, an early return reports those); then require the TTL to
be at least 24 hours and at most 28 days after the scheduled time, and in
the future. -/
def validateUnifiedTtl (ttlDateTime scheduledDateTime : Option Int) (now : Int) :
    ValidationResult :=
  match ttlDateTime, scheduledDateTime with
  | none, none => { isValid := false, errors := ["Invalid TTL datetime", "Invalid scheduled datetime"] }
  | none, some _ => { isValid := false, errors := ["Invalid TTL datetime"] }
  | some _, none => { isValid := false, errors := ["Invalid scheduled datetime"] }
  | some ttl, some scheduled =>
    let errors : List String :=
      (if ttl < scheduled + dayMs then ["TTL must be at least 24 hours after scheduled time"] else [])
      ++ (if ttl > scheduled + 28 * dayMs then ["TTL cannot be more than 28 days after scheduled time"] else [])
      ++ (if ttl ≤ now then ["TTL must be in the future"] else [])
    { isValid := errors.isEmpty, errors := errors }

/-- RetryService.calculateNextRetryAttempt: no retry when the TTL has
expired, the error code has no policy, the intervals are exhausted, or the
candidate time lands after the TTL; otherwise the candidate is the last
attempt time plus the policy interval for the current attempt, in hours. -/
def calculateNextRetryAttempt (errorCode : String) (currentAttempt : Nat)
    (lastAttemptAt ttlDateTime now : Int) : NextRetryResult :=
  if isRetryTtlExpired ttlDateTime now then
    { nextAttemptAt := none, shouldRetry := false }
  else
    match DEFAULT_RETRY_POLICIES errorCode with
    | none => { nextAttemptAt := none, shouldRetry := false }
    | some policy =>
      if currentAttempt ≥ policy.retryIntervals.length then
        { nextAttemptAt := none, shouldRetry := false }
      else
        let retryDelayHours : Int := policy.retryIntervals.getD currentAttempt 0
        let nextAttempt := lastAttemptAt + retryDelayHours * hourMs
        if nextAttempt > ttlDateTime then
          { nextAttemptAt := none, shouldRetry := false }
        else
          { nextAttemptAt := some nextAttempt, shouldRetry := true }

/-- RetryService.getRetryPolicy: lookup in the policy table. -/
def getRetryPolicy (errorCode : String) : Option RetryPolicy :=
  DEFAULT_RETRY_POLICIES errorCode

/-- RetryService.isTemplateActive: the source is a placeholder that
returns true for every template id. -/
def isTemplateActive (_templateId : String) : Bool :=
  true

/-- RetryService.processRetryAttempt: guard chain (disabled, missing or
expired TTL, unknown policy, template-paused precondition) and then
delegation to calculateNextRetryAttempt with the attempt count and last
attempt time (defaulting to now). -/
def processRetryAttempt (campaignId : String) (errorCode : String)
    (retryState : CampaignRetryState) (now : Int) : RetryDecision :=
  if !retryState.retryConfig.enabled then
    { shouldRetry := false, nextAttemptAt := none,
      reason := "Retry is disabled for this campaign" }
  else
    match retryState.retryConfig.ttlDateTime with
    | none =>
      { shouldRetry := false, nextAttemptAt := none,
        reason := "Retry TTL has expired" }
    | some ttl =>
      if isRetryTtlExpired ttl now then
        { shouldRetry := false, nextAttemptAt := none,
          reason := "Retry TTL has expired" }
      else
        match getRetryPolicy errorCode with
        | none =>
          { shouldRetry := false, nextAttemptAt := none,
            reason := "No retry policy found for error code " ++ errorCode }
        | some policy =>
          let proceed : RetryDecision :=
            let currentAttempt := retryState.attempts.length
            let lastAttemptAt := retryState.lastAttemptAt.getD now
            let r := calculateNextRetryAttempt errorCode currentAttempt lastAttemptAt ttl now
            { shouldRetry := r.shouldRetry, nextAttemptAt := r.nextAttemptAt,
              reason :=
                if r.shouldRetry then
                  match r.nextAttemptAt with
                  | some t => "Retry scheduled for " ++ toString t
                  | none => "Retry scheduled for null"
                else "No more retry attempts available or TTL expired" }
          if errorCode = "132015" && policy.requiresTemplateActive then
            if !isTemplateActive campaignId then
              { shouldRetry := false, nextAttemptAt := none,
                reason := "Template is still paused, retry blocked" }
            else proceed
          else proceed

/-- RetryService.updateRetryState: append the attempt, set lastAttemptAt
to the attempt's execution time (or now), recompute isExpired from the
TTL; all other fields are carried over by the record spread. -/
def updateRetryState (retryState : CampaignRetryState) (attempt : RetryAttempt)
    (now : Int) : CampaignRetryState :=
  { retryState with
    attempts := retryState.attempts ++ [attempt],
    lastAttemptAt := some (attempt.executedAt.getD now),
    isExpired :=
      match retryState.retryConfig.ttlDateTime with
      | some ttl => isRetryTtlExpired ttl now
      | none => false }

end RetryService

/-- The in-memory retry state store: the Map from campaign id to
CampaignRetryState, as an insertion-ordered association list (JavaScript
Map iteration order); keys are distinct in any store built by Map.set. -/
abbrev Store := List (String × CampaignRetryState)

namespace CampaignService

/-- Map.get: the value at a key, none when absent. -/
def mapGet : Store → String → Option CampaignRetryState
  | [], _ => none
  | (k, v) :: rest, campaignId =>
    if k = campaignId then some v else mapGet rest campaignId

/-- Map.set: replace the value at an existing key in place, else append. -/
def mapSet : Store → String → CampaignRetryState → Store
  | [], campaignId, v => [(campaignId, v)]
  | (k, w) :: rest, campaignId, v =>
    if k = campaignId then (campaignId, v) :: rest
    else (k, w) :: mapSet rest campaignId v

/-- Condition of the TTL-expiry check inside the store scan: a TTL is set
and has passed ("retryConfig.ttlDateTime && isRetryTtlExpired(...)"). -/
def ttlCheckExpired (retryState : CampaignRetryState) (now : Int) : Bool :=
  match retryState.retryConfig.ttlDateTime with
  | some ttl => RetryService.isRetryTtlExpired ttl now
  | none => false

/-- CampaignService.getCampaignsForRetry: a forEach over all entries that
skips disabled or already-expired entries, flips isExpired to true in
place on an entry whose set TTL has passed, and collects entries whose
nextAttemptAt is set and has arrived.  Returns the store after the scan
(first component) and the collected due list (second component). -/
def getCampaignsForRetry (store : Store) (now : Int) :
    Store × List (String × CampaignRetryState) :=
  match store with
  | [] => ([], [])
  | (campaignId, retryState) :: rest =>
    let tail := getCampaignsForRetry rest now
    if !retryState.retryConfig.enabled || retryState.isExpired then
      ((campaignId, retryState) :: tail.1, tail.2)
    else if ttlCheckExpired retryState now then
      ((campaignId, { retryState with isExpired := true }) :: tail.1, tail.2)
    else
      match retryState.nextAttemptAt with
      | some nextAttempt =>
        if now ≥ nextAttempt then
          ((campaignId, retryState) :: tail.1, (campaignId, retryState) :: tail.2)
        else
          ((campaignId, retryState) :: tail.1, tail.2)
      | none => ((campaignId, retryState) :: tail.1, tail.2)

/-- CampaignService.updateRetryAttempt: when the campaign has a retry
state, replace it with RetryService.updateRetryState of it; otherwise do
nothing. -/
def updateRetryAttempt (store : Store) (campaignId : String)
    (attempt : RetryAttempt) (now : Int) : Store :=
  match mapGet store campaignId with
  | some retryState => mapSet store campaignId (RetryService.updateRetryState retryState attempt now)
  | none => store

/-- The scheduler's nextAttemptAt assignment on the state read back from
the store ("updatedState.nextAttemptAt = retryDecision.nextAttemptAt" in
RetryEngine.executeCampaignRetry, a no-op when the state is absent). -/
def setNextAttempt (store : Store) (campaignId : String) (t : Option Int) : Store :=
  match mapGet store campaignId with
  | some retryState => mapSet store campaignId { retryState with nextAttemptAt := t }
  | none => store

end CampaignService

/-- Scheduler configuration (RetryEngineConfig). -/
structure RetryEngineConfig where
  maxConcurrentRetries : Nat
  retryCheckIntervalMs : Int
  enableLogging : Bool
deriving DecidableEq, Repr

/-- Outcome reported by the campaign executor for one attempt
(the success/errorCode part of simulateCampaignExecution's result). -/
structure ExecOutcome where
  success : Bool
  errorCode : Option String
deriving DecidableEq, Repr

namespace RetryEngine

/-- The batch a tick processes: the first batchSize entries of the due
list, batchSize = min(due.length, maxConcurrentRetries)
("campaignsForRetry.slice(0, batchSize)" in processRetries). -/
def retryBatch (due : List (String × CampaignRetryState))
    (maxConcurrentRetries : Nat) : List (String × CampaignRetryState) :=
  let batchSize := min due.length maxConcurrentRetries
  due.take batchSize

/-- RetryEngine.executeCampaignRetry for one campaign of the batch, with
the executor's outcome passed in: record the attempt through
CampaignService.updateRetryAttempt, and on a failure with an error code
consult RetryService.processRetryAttempt and store the next attempt time
when a retry is scheduled. -/
def executeCampaignRetry (store : Store) (now : Int) (campaignId : String)
    (retryState : CampaignRetryState) (outcome : ExecOutcome) : Store :=
  let attempt : RetryAttempt :=
    { attemptNumber := retryState.attempts.length + 1,
      scheduledAt := now,
      executedAt := some now,
      status := if outcome.success then .completed else .failed,
      errorCode := outcome.errorCode }
  let store1 := CampaignService.updateRetryAttempt store campaignId attempt now
  if outcome.success then store1
  else
    match outcome.errorCode with
    | some errorCode =>
      let retryDecision := RetryService.processRetryAttempt campaignId errorCode retryState now
      if retryDecision.shouldRetry && retryDecision.nextAttemptAt.isSome then
        CampaignService.setNextAttempt store1 campaignId retryDecision.nextAttemptAt
      else store1
    | none => store1

/-- RetryEngine.processRetries, one tick: scan the store for due
campaigns, stop when none, otherwise process the batch limited by
maxConcurrentRetries; exec gives each campaign's executor outcome. -/
def processRetries (exec : String → ExecOutcome) (config : RetryEngineConfig)
    (store : Store) (now : Int) : Store :=
  let scan := CampaignService.getCampaignsForRetry store now
  if scan.2.isEmpty then scan.1
  else
    let batch := retryBatch scan.2 config.maxConcurrentRetries
    batch.foldl (fun s e => executeCampaignRetry s now e.1 e.2 (exec e.1)) scan.1

/-- RetryEngine.validateRetryConfig: the looser validator; requires the
TTL strictly after the scheduled time, at most 7 days after it, and in
the future; no minimum gap. -/
def validateRetryConfig (ttlDateTime scheduledDateTime : Option Int) (now : Int) :
    ValidationResult :=
  match ttlDateTime, scheduledDateTime with
  | none, none => { isValid := false, errors := ["Invalid TTL datetime", "Invalid scheduled datetime"] }
  | none, some _ => { isValid := false, errors := ["Invalid TTL datetime"] }
  | some _, none => { isValid := false, errors := ["Invalid scheduled datetime"] }
  | some ttl, some scheduled =>
    let errors : List String :=
      (if ttl ≤ scheduled then ["TTL must be after scheduled time"] else [])
      ++ (if ttl > scheduled + 7 * dayMs then ["TTL cannot be more than 7 days after scheduled time"] else [])
      ++ (if ttl ≤ now then ["TTL must be in the future"] else [])
    { isValid := errors.isEmpty, errors := errors }

end RetryEngine

/-- Control state of one RetryEngine instance: whether it is running and
how many processRetries executions are currently in progress. -/
structure EngineState where
  isRunning : Bool
  ticksInProgress : Nat
deriving DecidableEq, Repr

/-- Events of the engine's event loop: the start and stop commands, a fire
of the interval timer, and the completion of a processRetries execution. -/
inductive EngineEvent where
  | startCmd
  | stopCmd
  | timerFire
  | tickComplete
deriving DecidableEq, Repr

/-- Event-level model of RetryEngine's scheduling control flow: start is
idempotent and registers the interval, stop clears it, and a timer fire
while running invokes this.processRetries() unconditionally - the
setInterval callback has no check that a previous tick is still in
progress and logs no warning, so each fire begins a new execution. -/
def engineStep (s : EngineState) (e : EngineEvent) : EngineState :=
  match e with
  | .startCmd => if s.isRunning then s else { s with isRunning := true }
  | .stopCmd => if s.isRunning then { s with isRunning := false } else s
  | .timerFire =>
    if s.isRunning then { s with ticksInProgress := s.ticksInProgress + 1 } else s
  | .tickComplete => { s with ticksInProgress := s.ticksInProgress - 1 }

/-- A run of the engine's event loop from a state through a list of events. -/
def engineRun (s : EngineState) (events : List EngineEvent) : EngineState :=
  events.foldl engineStep s

/-- Spec-side eligibility, following the claim's words: retry enabled, not
marked expired, the TTL (when set) not passed, and a next attempt time
that is set and has arrived. -/
def specEligible (now : Int) (st : CampaignRetryState) : Bool :=
  st.retryConfig.enabled && !st.isExpired && !CampaignService.ttlCheckExpired st now &&
  (match st.nextAttemptAt with
   | some nextAttempt => decide (nextAttempt ≤ now)
   | none => false)

/-- Spec-side description of the scan's in-place effect on one entry: an
enabled, not-yet-marked-expired entry whose set TTL has passed is marked
expired; every other entry is unchanged. -/
def specScanEntry (now : Int) (e : String × CampaignRetryState) :
    String × CampaignRetryState :=
  if e.2.retryConfig.enabled && !e.2.isExpired && CampaignService.ttlCheckExpired e.2 now then
    (e.1, { e.2 with isExpired := true })
  else e

/-- A store with one disabled entry whose TTL (0) has already passed and
whose isExpired flag is false. -/
def c2CexStore : Store :=
  [("c1", { campaignId := "c1",
            retryConfig := { enabled := false, ttlDateTime := some 0, scheduledDateTime := none,
                             stopOnConversion := true, stopOnManualPause := true,
                             stopOnTemplateChange := true },
            attempts := [], lastAttemptAt := none, nextAttemptAt := some 0,
            isExpired := false })]

/-- A retry configuration with a TTL 100 hours after epoch. -/
def sampleRetryConfig : RetryTtlConfig :=
  { enabled := true, ttlDateTime := some 360000000, scheduledDateTime := some 0,
    stopOnConversion := true, stopOnManualPause := true, stopOnTemplateChange := true }

/-- A due retry state: no attempts yet, last attempt at 0, next attempt
due at 0. -/
def sampleDueState (cid : String) : CampaignRetryState :=
  { campaignId := cid, retryConfig := sampleRetryConfig, attempts := [],
    lastAttemptAt := some 0, nextAttemptAt := some 0, isExpired := false }

/-- A store with five campaigns simultaneously due. -/
def fiveDueStore : Store :=
  [("c1", sampleDueState "c1"), ("c2", sampleDueState "c2"), ("c3", sampleDueState "c3"),
   ("c4", sampleDueState "c4"), ("c5", sampleDueState "c5")]

/-- An executor whose every attempt fails with the frequency-cap error. -/
def alwaysFreqCap : String → ExecOutcome :=
  fun _ => { success := false, errorCode := some "131049" }

/-- An engine configuration limited to 2 concurrent retries. -/
def twoAtATime : RetryEngineConfig :=
  { maxConcurrentRetries := 2, retryCheckIntervalMs := 60000, enableLogging := true }

/-- When the deadline has not passed and the policy has an interval left,
calculateNextRetryAttempt reduces to the comparison of the candidate
lastAttemptAt + intervals[attemptIndex] hours against the deadline. -/
lemma calculateNextRetryAttempt_char (ec : String) (i : Nat) (last ttl now : Int)
    (p : RetryPolicy) (hp : DEFAULT_RETRY_POLICIES ec = some p)
    (hnow : ¬ ttl < now) (hlt : i < p.retryIntervals.length) :
    RetryService.calculateNextRetryAttempt ec i last ttl now =
      if ttl < last + (p.retryIntervals.getD i 0 : Int) * hourMs then
        { nextAttemptAt := none, shouldRetry := false }
      else
        { nextAttemptAt := some (last + (p.retryIntervals.getD i 0 : Int) * hourMs),
          shouldRetry := true } := by
  simp only [RetryService.calculateNextRetryAttempt, hp]
  rw [if_neg (by simp [RetryService.isRetryTtlExpired, hnow])]
  rw [if_neg (by omega)]

/-- C1: calculateNextRetryAttempt returns no retry when the deadline has
passed, when the error code has no policy, when the intervals are
exhausted, or when the candidate lands strictly after the deadline; in the
remaining case it returns shouldRetry with the candidate
lastAttemptAt + intervals[attemptIndex] hours (equality with the deadline
counts as retryable); for error code 131049 at attempt index 0 the
candidate is lastAttemptAt + 12 hours. -/
theorem calculateNextRetryAttempt_correct (ec : String) (i : Nat) (last ttl now : Int) :
    (ttl < now →
      RetryService.calculateNextRetryAttempt ec i last ttl now =
        { nextAttemptAt := none, shouldRetry := false })
  ∧ (DEFAULT_RETRY_POLICIES ec = none →
      RetryService.calculateNextRetryAttempt ec i last ttl now =
        { nextAttemptAt := none, shouldRetry := false })
  ∧ (∀ p, DEFAULT_RETRY_POLICIES ec = some p → p.retryIntervals.length ≤ i →
      RetryService.calculateNextRetryAttempt ec i last ttl now =
        { nextAttemptAt := none, shouldRetry := false })
  ∧ (∀ p, DEFAULT_RETRY_POLICIES ec = some p → i < p.retryIntervals.length → ¬ ttl < now →
      (ttl < last + (p.retryIntervals.getD i 0 : Int) * hourMs →
        RetryService.calculateNextRetryAttempt ec i last ttl now =
          { nextAttemptAt := none, shouldRetry := false })
    ∧ (last + (p.retryIntervals.getD i 0 : Int) * hourMs ≤ ttl →
        RetryService.calculateNextRetryAttempt ec i last ttl now =
          { nextAttemptAt := some (last + (p.retryIntervals.getD i 0 : Int) * hourMs),
            shouldRetry := true }))
  ∧ (¬ ttl < now → last + 12 * hourMs ≤ ttl →
      RetryService.calculateNextRetryAttempt "131049" 0 last ttl now =
        { nextAttemptAt := some (last + 12 * hourMs), shouldRetry := true }) := by
  refine ⟨?_, ?_, ?_, ?_, ?_⟩
  · intro h
    simp [RetryService.calculateNextRetryAttempt, RetryService.isRetryTtlExpired, h]
  · intro h
    simp [RetryService.calculateNextRetryAttempt, RetryService.isRetryTtlExpired, h]
  · intro p hp hlen
    simp only [RetryService.calculateNextRetryAttempt, hp]
    split <;> rfl
  · intro p hp hlt hnow
    constructor
    · intro hcand
      rw [calculateNextRetryAttempt_char ec i last ttl now p hp hnow hlt]
      rw [if_pos hcand]
    · intro hcand
      rw [calculateNextRetryAttempt_char ec i last ttl now p hp hnow hlt]
      rw [if_neg (not_lt.mpr hcand)]
  · intro hnow hcand
    have hp : DEFAULT_RETRY_POLICIES "131049" =
        some { errorCode := "131049", description := "Frequency cap / healthy ecosystem",
               retryIntervals := [12, 24, 48] } := by rfl
    rw [calculateNextRetryAttempt_char "131049" 0 last ttl now _ hp hnow (by decide)]
    norm_num [List.getD_cons_zero]
    exact hcand

/-- Witness for C1: with last attempt at 0 and deadline 100 hours later,
error code 131049 at attempt index 0 retries at 12 hours. -/
theorem calculateNextRetryAttempt_correct_witness :
    RetryService.calculateNextRetryAttempt "131049" 0 0 (100 * hourMs) 0 =
      { nextAttemptAt := some (0 + 12 * hourMs), shouldRetry := true } :=
  (calculateNextRetryAttempt_correct "131049" 0 0 (100 * hourMs) 0).2.2.2.2
    (by decide) (by decide)

/-- validateUnifiedTtl on parsable inputs is valid exactly when the TTL is
at least 24 hours and at most 28 days after the scheduled time and in the
future. -/
lemma validateUnifiedTtl_isValid_iff (ttl scheduled now : Int) :
    (RetryService.validateUnifiedTtl (some ttl) (some scheduled) now).isValid = true ↔
      (scheduled + dayMs ≤ ttl ∧ ttl ≤ scheduled + 28 * dayMs ∧ now < ttl) := by
  simp only [RetryService.validateUnifiedTtl]
  split_ifs with h1 h2 h3 <;> simp_all

/-- validateUnifiedTtl reports validity exactly when its error list is
empty, on every input. -/
lemma validateUnifiedTtl_isValid_isEmpty (t s : Option Int) (now : Int) :
    (RetryService.validateUnifiedTtl t s now).isValid =
      (RetryService.validateUnifiedTtl t s now).errors.isEmpty := by
  cases t <;> cases s <;> simp [RetryService.validateUnifiedTtl]

/-- C3: for parsable timestamps whose gap lies between the 24-hour minimum
and the 28-day maximum with a future TTL, validateUnifiedTtl returns valid
with no errors; a gap below the minimum, a gap above the maximum, or a
non-future TTL each yield invalid with at least one error; the function is
total and always returns the structured result whose validity flag agrees
with emptiness of its error list. -/
theorem validateUnifiedTtl_correct (ttl scheduled now : Int) :
    (dayMs ≤ ttl - scheduled → ttl - scheduled ≤ 28 * dayMs → now < ttl →
      RetryService.validateUnifiedTtl (some ttl) (some scheduled) now =
        { isValid := true, errors := [] })
  ∧ (ttl - scheduled < dayMs →
      (RetryService.validateUnifiedTtl (some ttl) (some scheduled) now).isValid = false ∧
      (RetryService.validateUnifiedTtl (some ttl) (some scheduled) now).errors ≠ [])
  ∧ (28 * dayMs < ttl - scheduled →
      (RetryService.validateUnifiedTtl (some ttl) (some scheduled) now).isValid = false ∧
      (RetryService.validateUnifiedTtl (some ttl) (some scheduled) now).errors ≠ [])
  ∧ (ttl ≤ now →
      (RetryService.validateUnifiedTtl (some ttl) (some scheduled) now).isValid = false ∧
      (RetryService.validateUnifiedTtl (some ttl) (some scheduled) now).errors ≠ [])
  ∧ (∀ t s : Option Int,
      (RetryService.validateUnifiedTtl t s now).isValid =
        (RetryService.validateUnifiedTtl t s now).errors.isEmpty) := by
  have invalid : ∀ hne : ¬ (scheduled + dayMs ≤ ttl ∧ ttl ≤ scheduled + 28 * dayMs ∧ now < ttl),
      (RetryService.validateUnifiedTtl (some ttl) (some scheduled) now).isValid = false ∧
      (RetryService.validateUnifiedTtl (some ttl) (some scheduled) now).errors ≠ [] := by
    intro hne
    have hv : (RetryService.validateUnifiedTtl (some ttl) (some scheduled) now).isValid = false := by
      rw [Bool.eq_false_iff]
      intro h
      exact hne ((validateUnifiedTtl_isValid_iff ttl scheduled now).mp h)
    refine ⟨hv, fun he => ?_⟩
    have h2 := validateUnifiedTtl_isValid_isEmpty (some ttl) (some scheduled) now
    rw [he, hv] at h2
    simp at h2
  refine ⟨?_, ?_, ?_, ?_, fun t s => validateUnifiedTtl_isValid_isEmpty t s now⟩
  · intro h1 h2 h3
    simp only [RetryService.validateUnifiedTtl]
    rw [if_neg (by omega), if_neg (by omega), if_neg (by omega)]
    rfl
  · intro h
    exact invalid (by omega)
  · intro h
    exact invalid (by omega)
  · intro h
    exact invalid (by omega)

/-- Witness for C3: a TTL 2 days after the scheduled time and in the
future validates with no errors. -/
theorem validateUnifiedTtl_correct_witness :
    RetryService.validateUnifiedTtl (some (2 * dayMs)) (some 0) 0 =
      { isValid := true, errors := [] } :=
  (validateUnifiedTtl_correct (2 * dayMs) 0 0).1 (by decide) (by decide) (by decide)

/-- validateRetryConfig on parsable inputs is valid exactly when the TTL
is strictly after the scheduled time, at most 7 days after it, and in the
future: no minimum gap. -/
lemma validateRetryConfig_isValid_iff (ttl scheduled now : Int) :
    (RetryEngine.validateRetryConfig (some ttl) (some scheduled) now).isValid = true ↔
      (scheduled < ttl ∧ ttl ≤ scheduled + 7 * dayMs ∧ now < ttl) := by
  simp only [RetryEngine.validateRetryConfig]
  split_ifs with h1 h2 h3 <;> simp_all

/-- C4: the two validators disagree as the open question describes:
RetryEngine.validateRetryConfig accepts exactly a future TTL strictly
after the scheduled time and at most 7 days after it (no minimum gap),
RetryService.validateUnifiedTtl accepts exactly a future TTL between 24
hours and 28 days after the scheduled time; hence on a future gap strictly
between 7 and 28 days the former is invalid and the latter valid, and on a
positive future gap under 24 hours the former is valid and the latter
invalid. -/
theorem validators_disagree (ttl scheduled now : Int) :
    ((RetryEngine.validateRetryConfig (some ttl) (some scheduled) now).isValid = true ↔
      (scheduled < ttl ∧ ttl ≤ scheduled + 7 * dayMs ∧ now < ttl))
  ∧ ((RetryService.validateUnifiedTtl (some ttl) (some scheduled) now).isValid = true ↔
      (scheduled + dayMs ≤ ttl ∧ ttl ≤ scheduled + 28 * dayMs ∧ now < ttl))
  ∧ (7 * dayMs < ttl - scheduled → ttl - scheduled < 28 * dayMs → now < ttl →
      (RetryEngine.validateRetryConfig (some ttl) (some scheduled) now).isValid = false ∧
      (RetryService.validateUnifiedTtl (some ttl) (some scheduled) now).isValid = true)
  ∧ (0 < ttl - scheduled → ttl - scheduled < dayMs → now < ttl →
      (RetryEngine.validateRetryConfig (some ttl) (some scheduled) now).isValid = true ∧
      (RetryService.validateUnifiedTtl (some ttl) (some scheduled) now).isValid = false) := by
  refine ⟨validateRetryConfig_isValid_iff ttl scheduled now,
          validateUnifiedTtl_isValid_iff ttl scheduled now, ?_, ?_⟩
  · intro h1 h2 h3
    constructor
    · rw [Bool.eq_false_iff]
      intro h
      have := (validateRetryConfig_isValid_iff ttl scheduled now).mp h
      omega
    · exact (validateUnifiedTtl_isValid_iff ttl scheduled now).mpr ⟨by omega, by omega, h3⟩
  · intro h1 h2 h3
    constructor
    · exact (validateRetryConfig_isValid_iff ttl scheduled now).mpr ⟨by omega, by omega, h3⟩
    · rw [Bool.eq_false_iff]
      intro h
      have := (validateUnifiedTtl_isValid_iff ttl scheduled now).mp h
      omega

/-- Witness for C4: with a 10-day future gap, the engine validator rejects
while the unified validator accepts. -/
theorem validators_disagree_witness :
    (RetryEngine.validateRetryConfig (some (10 * dayMs)) (some 0) 0).isValid = false ∧
    (RetryService.validateUnifiedTtl (some (10 * dayMs)) (some 0) 0).isValid = true :=
  (validators_disagree (10 * dayMs) 0 0).2.2.1 (by decide) (by decide) (by decide)

/-- C5: processRetryAttempt returns a structured no-retry result with the
disabled reason when retry is disabled, with the expired reason when the
TTL is missing or has passed, and with a no-policy reason when the error
code has no entry in the policy table; the function is total, so it always
returns a structured result. -/
theorem processRetryAttempt_guards (cid ec : String) (st : CampaignRetryState) (now : Int) :
    (st.retryConfig.enabled = false →
      RetryService.processRetryAttempt cid ec st now =
        { shouldRetry := false, nextAttemptAt := none,
          reason := "Retry is disabled for this campaign" })
  ∧ (st.retryConfig.enabled = true → st.retryConfig.ttlDateTime = none →
      RetryService.processRetryAttempt cid ec st now =
        { shouldRetry := false, nextAttemptAt := none,
          reason := "Retry TTL has expired" })
  ∧ (st.retryConfig.enabled = true → ∀ ttl, st.retryConfig.ttlDateTime = some ttl → ttl < now →
      RetryService.processRetryAttempt cid ec st now =
        { shouldRetry := false, nextAttemptAt := none,
          reason := "Retry TTL has expired" })
  ∧ (st.retryConfig.enabled = true → ∀ ttl, st.retryConfig.ttlDateTime = some ttl → ¬ ttl < now →
      DEFAULT_RETRY_POLICIES ec = none →
      RetryService.processRetryAttempt cid ec st now =
        { shouldRetry := false, nextAttemptAt := none,
          reason := "No retry policy found for error code " ++ ec }) := by
  refine ⟨?_, ?_, ?_, ?_⟩
  · intro hen
    simp [RetryService.processRetryAttempt, hen]
  · intro hen httl
    simp [RetryService.processRetryAttempt, hen, httl]
  · intro hen ttl httl hlt
    simp [RetryService.processRetryAttempt, hen, httl,
          RetryService.isRetryTtlExpired, hlt]
  · intro hen ttl httl hlt hp
    simp [RetryService.processRetryAttempt, hen, httl,
          RetryService.isRetryTtlExpired, hlt, RetryService.getRetryPolicy, hp]

/-- Witness for C5: a disabled retry configuration yields the disabled
no-retry result. -/
theorem processRetryAttempt_guards_witness :
    RetryService.processRetryAttempt "c" "131049"
      { campaignId := "c",
        retryConfig := { enabled := false, ttlDateTime := none, scheduledDateTime := none,
                         stopOnConversion := true, stopOnManualPause := true,
                         stopOnTemplateChange := true },
        attempts := [], lastAttemptAt := none, nextAttemptAt := none, isExpired := false } 0 =
      { shouldRetry := false, nextAttemptAt := none,
        reason := "Retry is disabled for this campaign" } :=
  (processRetryAttempt_guards "c" "131049"
      { campaignId := "c",
        retryConfig := { enabled := false, ttlDateTime := none, scheduledDateTime := none,
                         stopOnConversion := true, stopOnManualPause := true,
                         stopOnTemplateChange := true },
        attempts := [], lastAttemptAt := none, nextAttemptAt := none, isExpired := false } 0).1
    (by decide)

/-- Two strings differ when the first, extended by any suffix, starts with
a different character than the second. -/
lemma append_ne_of_head_ne (p x q : String)
    (hne : p.data[0]? ≠ q.data[0]?) (hp : 0 < p.data.length) : p ++ x ≠ q := by
  intro he
  apply hne
  have hd : p.data ++ x.data = q.data := by
    rw [← String.data_append]
    exact congrArg String.data he
  calc p.data[0]? = (p.data ++ x.data)[0]? := by
        rw [List.getElem?_append]
        rw [if_pos hp]
    _ = q.data[0]? := by rw [hd]

/-- C9: isTemplateActive returns true for every template id, so the
template-paused blocked branch of processRetryAttempt is unreachable:
no input produces the blocked reason. -/
theorem templateBlocked_unreachable (cid ec : String) (st : CampaignRetryState) (now : Int) :
    (∀ tid : String, RetryService.isTemplateActive tid = true)
  ∧ (RetryService.processRetryAttempt cid ec st now).reason ≠
      "Template is still paused, retry blocked" := by
  refine ⟨fun _ => rfl, ?_⟩
  cases hen : st.retryConfig.enabled with
  | false =>
    simp only [RetryService.processRetryAttempt, hen, Bool.not_false, if_true]
    decide
  | true =>
    cases httl : st.retryConfig.ttlDateTime with
    | none =>
      simp only [RetryService.processRetryAttempt, hen, httl, Bool.not_true]
      decide
    | some ttl =>
      by_cases hex : ttl < now
      · simp only [RetryService.processRetryAttempt, hen, httl, Bool.not_true,
                   Bool.false_eq_true, if_false, if_true,
                   RetryService.isRetryTtlExpired, decide_eq_true_eq, hex]
        decide
      · cases hp : DEFAULT_RETRY_POLICIES ec with
        | none =>
          simp only [RetryService.processRetryAttempt, hen, httl, Bool.not_true,
                     RetryService.isRetryTtlExpired, decide_eq_true_eq, hex,
                     RetryService.getRetryPolicy, hp]
          intro he
          exact append_ne_of_head_ne _ _ _ (by decide) (by decide) he
        | some policy =>
          simp only [RetryService.processRetryAttempt, hen, httl, Bool.not_true,
                     RetryService.isRetryTtlExpired, decide_eq_true_eq, hex,
                     RetryService.getRetryPolicy, hp, RetryService.isTemplateActive,
                     Bool.not_true, Bool.false_eq_true, if_false]
          rw [ite_self]
          dsimp only
          split
          · split
            · intro he
              exact append_ne_of_head_ne _ _ _ (by decide) (by decide) he
            · decide
          · decide

/-- The store after the scan is the entrywise image of specScanEntry. -/
lemma getCampaignsForRetry_fst (store : Store) (now : Int) :
    (CampaignService.getCampaignsForRetry store now).1 = store.map (specScanEntry now) := by
  induction store with
  | nil => rfl
  | cons e rest ih =>
    obtain ⟨cid, st⟩ := e
    cases hen : st.retryConfig.enabled <;> cases hisx : st.isExpired <;>
      cases httl : CampaignService.ttlCheckExpired st now <;>
        rcases hna : st.nextAttemptAt with _ | na <;>
          simp [CampaignService.getCampaignsForRetry, specScanEntry, hen, hisx, httl, hna, ih] <;>
            split_ifs <;> simp [ih]

/-- The due list the scan collects is the filter of the stored entries by
the eligibility predicate. -/
lemma getCampaignsForRetry_snd (store : Store) (now : Int) :
    (CampaignService.getCampaignsForRetry store now).2 =
      store.filter (fun e => specEligible now e.2) := by
  induction store with
  | nil => rfl
  | cons e rest ih =>
    obtain ⟨cid, st⟩ := e
    cases hen : st.retryConfig.enabled <;> cases hisx : st.isExpired <;>
      cases httl : CampaignService.ttlCheckExpired st now <;>
        rcases hna : st.nextAttemptAt with _ | na <;>
          simp [CampaignService.getCampaignsForRetry, specEligible, hen, hisx, httl, hna, ih,
                List.filter_cons] <;>
            split_ifs <;> simp [ih]

/-- Counterexample for C2 as stated: the scan does not set isExpired on
every scanned entry whose TTL has passed - a disabled entry is skipped
before the expiry flip, so after the scan it still has isExpired = false
although its TTL passed. -/
theorem getCampaignsForRetry_flip_cex :
    ¬ (∀ e ∈ (CampaignService.getCampaignsForRetry c2CexStore 1000).1,
        CampaignService.ttlCheckExpired e.2 1000 = true → e.2.isExpired = true) := by
  decide

/-- C2 (amended): getCampaignsForRetry returns exactly the stored entries
that are enabled, not marked expired, whose TTL (when set) has not passed,
and whose nextAttemptAt is set and at most now; it never returns an entry
with isExpired = true or enabled = false; and it sets isExpired to true in
place exactly on the scanned entries that are enabled and not already
marked expired whose TTL has passed (disabled or already-expired entries
are left untouched). -/
theorem getCampaignsForRetry_correct (store : Store) (now : Int) :
    ((CampaignService.getCampaignsForRetry store now).2 =
      store.filter (fun e => specEligible now e.2))
  ∧ (∀ e ∈ (CampaignService.getCampaignsForRetry store now).2,
      e.2.retryConfig.enabled = true ∧ e.2.isExpired = false)
  ∧ ((CampaignService.getCampaignsForRetry store now).1 =
      store.map (specScanEntry now)) := by
  refine ⟨getCampaignsForRetry_snd store now, ?_, getCampaignsForRetry_fst store now⟩
  intro e he
  rw [getCampaignsForRetry_snd store now] at he
  have h2 := (List.mem_filter.mp he).2
  simp only [specEligible, Bool.and_eq_true] at h2
  exact ⟨h2.1.1.1, by simpa using h2.1.1.2⟩

/-- Witness for C2 (amended): a store with a single enabled, unexpired,
due entry returns exactly that entry, which is enabled and not expired. -/
theorem getCampaignsForRetry_correct_witness :
    (("a", ({ campaignId := "a",
              retryConfig := { enabled := true, ttlDateTime := some 1000000,
                               scheduledDateTime := none, stopOnConversion := true,
                               stopOnManualPause := true, stopOnTemplateChange := true },
              attempts := [], lastAttemptAt := some 0, nextAttemptAt := some 0,
              isExpired := false } : CampaignRetryState)).2.retryConfig.enabled = true)
  ∧ (("a", ({ campaignId := "a",
              retryConfig := { enabled := true, ttlDateTime := some 1000000,
                               scheduledDateTime := none, stopOnConversion := true,
                               stopOnManualPause := true, stopOnTemplateChange := true },
              attempts := [], lastAttemptAt := some 0, nextAttemptAt := some 0,
              isExpired := false } : CampaignRetryState)).2.isExpired = false) :=
  (getCampaignsForRetry_correct
      [("a", { campaignId := "a",
               retryConfig := { enabled := true, ttlDateTime := some 1000000,
                                scheduledDateTime := none, stopOnConversion := true,
                                stopOnManualPause := true, stopOnTemplateChange := true },
               attempts := [], lastAttemptAt := some 0, nextAttemptAt := some 0,
               isExpired := false })] 0).2.1 _ (by decide)

/-- C8: updateRetryState appends the attempt (the length grows by one and
the prior elements are unchanged), sets lastAttemptAt to the attempt's
execution time (or now when absent), recomputes isExpired from the TTL,
and leaves campaignId, retryConfig and nextAttemptAt unchanged; and
updateRetryAttempt replaces the stored state of that campaign with this
result. -/
theorem updateRetryState_correct (st : CampaignRetryState) (a : RetryAttempt) (now : Int) :
    (RetryService.updateRetryState st a now).attempts = st.attempts ++ [a]
  ∧ (RetryService.updateRetryState st a now).attempts.length = st.attempts.length + 1
  ∧ (RetryService.updateRetryState st a now).attempts.take st.attempts.length = st.attempts
  ∧ (RetryService.updateRetryState st a now).lastAttemptAt = some (a.executedAt.getD now)
  ∧ (RetryService.updateRetryState st a now).isExpired =
      (match st.retryConfig.ttlDateTime with
       | some ttl => RetryService.isRetryTtlExpired ttl now
       | none => false)
  ∧ (RetryService.updateRetryState st a now).campaignId = st.campaignId
  ∧ (RetryService.updateRetryState st a now).retryConfig = st.retryConfig
  ∧ (RetryService.updateRetryState st a now).nextAttemptAt = st.nextAttemptAt
  ∧ (∀ (store : Store) (cid : String), CampaignService.mapGet store cid = some st →
      CampaignService.updateRetryAttempt store cid a now =
        CampaignService.mapSet store cid (RetryService.updateRetryState st a now)) := by
  refine ⟨rfl, by simp [RetryService.updateRetryState], ?_, rfl, rfl, rfl, rfl, rfl, ?_⟩
  · simp only [RetryService.updateRetryState]
    exact List.take_left st.attempts [a]
  · intro store cid h
    simp [CampaignService.updateRetryAttempt, h]

/-- Witness for C8: updating a stored one-entry state replaces it with the
appended state. -/
theorem updateRetryState_correct_witness :
    CampaignService.updateRetryAttempt
      [("w", { campaignId := "w",
               retryConfig := { enabled := true, ttlDateTime := some 100, scheduledDateTime := none,
                                stopOnConversion := true, stopOnManualPause := true,
                                stopOnTemplateChange := true },
               attempts := [], lastAttemptAt := none, nextAttemptAt := none, isExpired := false })]
      "w" { attemptNumber := 1, scheduledAt := 3, errorCode := none, status := AttemptStatus.failed,
            executedAt := some 3 } 3 =
    CampaignService.mapSet
      [("w", { campaignId := "w",
               retryConfig := { enabled := true, ttlDateTime := some 100, scheduledDateTime := none,
                                stopOnConversion := true, stopOnManualPause := true,
                                stopOnTemplateChange := true },
               attempts := [], lastAttemptAt := none, nextAttemptAt := none, isExpired := false })]
      "w"
      (RetryService.updateRetryState
        { campaignId := "w",
          retryConfig := { enabled := true, ttlDateTime := some 100, scheduledDateTime := none,
                           stopOnConversion := true, stopOnManualPause := true,
                           stopOnTemplateChange := true },
          attempts := [], lastAttemptAt := none, nextAttemptAt := none, isExpired := false }
        { attemptNumber := 1, scheduledAt := 3, errorCode := none, status := AttemptStatus.failed,
          executedAt := some 3 } 3) :=
  (updateRetryState_correct
      { campaignId := "w",
        retryConfig := { enabled := true, ttlDateTime := some 100, scheduledDateTime := none,
                         stopOnConversion := true, stopOnManualPause := true,
                         stopOnTemplateChange := true },
        attempts := [], lastAttemptAt := none, nextAttemptAt := none, isExpired := false }
      { attemptNumber := 1, scheduledAt := 3, errorCode := none, status := AttemptStatus.failed,
        executedAt := some 3 } 3).2.2.2.2.2.2.2.2
    [("w", { campaignId := "w",
             retryConfig := { enabled := true, ttlDateTime := some 100, scheduledDateTime := none,
                              stopOnConversion := true, stopOnManualPause := true,
                              stopOnTemplateChange := true },
             attempts := [], lastAttemptAt := none, nextAttemptAt := none, isExpired := false })]
    "w" (by decide)

/-- C10: for a campaign with no stored retry state, updateRetryAttempt is
a silent no-op: the store is returned entirely unchanged. -/
theorem updateRetryAttempt_absent (store : Store) (cid : String) (a : RetryAttempt) (now : Int) :
    CampaignService.mapGet store cid = none →
    CampaignService.updateRetryAttempt store cid a now = store := by
  intro h
  simp [CampaignService.updateRetryAttempt, h]

/-- Witness for C10: updating an absent campaign in the empty store leaves
it empty. -/
theorem updateRetryAttempt_absent_witness :
    CampaignService.updateRetryAttempt [] "c"
      { attemptNumber := 1, scheduledAt := 0, errorCode := none, status := AttemptStatus.pending,
        executedAt := none } 0 = [] :=
  updateRetryAttempt_absent [] "c"
    { attemptNumber := 1, scheduledAt := 0, errorCode := none, status := AttemptStatus.pending,
      executedAt := none } 0 (by decide)

/-- C7: a tick processes exactly the first min(len(due),
maxConcurrentRetries) entries of the due list and no others; with
maxConcurrentRetries = 2 and five campaigns simultaneously due, the batch
is exactly the first two, and at the next tick (60 seconds later) the
remaining three are exactly the due campaigns. -/
theorem processRetries_batch_correct :
    (∀ (due : List (String × CampaignRetryState)) (m : Nat),
        (RetryEngine.retryBatch due m).length = min due.length m
      ∧ ∀ (i : Nat) (e : String × CampaignRetryState),
          (RetryEngine.retryBatch due m).getD i e =
            if i < min due.length m then due.getD i e else e)
  ∧ ((CampaignService.getCampaignsForRetry fiveDueStore 0).2.length = 5)
  ∧ ((RetryEngine.retryBatch (CampaignService.getCampaignsForRetry fiveDueStore 0).2
        twoAtATime.maxConcurrentRetries).map Prod.fst = ["c1", "c2"])
  ∧ ((CampaignService.getCampaignsForRetry
        (RetryEngine.processRetries alwaysFreqCap twoAtATime fiveDueStore 0)
        60000).2.map Prod.fst = ["c3", "c4", "c5"]) := by
  refine ⟨?_, by decide, by decide, by decide⟩
  intro due m
  constructor
  · simp [RetryEngine.retryBatch, List.length_take, Nat.min_comm]
  · intro i e
    simp only [RetryEngine.retryBatch, List.getD_eq_getElem?_getD, List.getElem?_take]
    split <;> rfl

/-- C6: in the event-level model of the scheduler's control flow, two
timer fires during one running engine with no intervening tick completion
leave two processRetries executions in progress: the code has no
overlap guard, so the claimed skip-with-warning does not happen. -/
theorem tickOverlap_reachable :
    (engineRun { isRunning := false, ticksInProgress := 0 }
      [EngineEvent.startCmd, EngineEvent.timerFire, EngineEvent.timerFire]).ticksInProgress
      = 2 := by
  decide

/-- Witness for C9: at a concrete input the blocked reason is not
produced and the template check returns true. -/
theorem templateBlocked_unreachable_witness :
    RetryService.isTemplateActive "t" = true ∧
    (RetryService.processRetryAttempt "t" "132015" (sampleDueState "t") 0).reason ≠
      "Template is still paused, retry blocked" :=
  ⟨(templateBlocked_unreachable "t" "132015" (sampleDueState "t") 0).1 "t",
   (templateBlocked_unreachable "t" "132015" (sampleDueState "t") 0).2⟩
